import Mathlib

/-!
Verification development for the Walkaroo travel-plan route engine
(`travel_plan.py` / `app.py`).

The Python source is shallowly embedded:
* Python strings are `String` (lists of characters); `str.lower` is modelled
  by `Char.toLower` (the inputs of interest are ASCII).
* Python floats are embedded as exact numbers: spreadsheet cell values and
  coordinates as `ℚ` (every float is a rational), trigonometric quantities
  (the haversine distance and the running travel times) as `ℝ`.
* A pandas cell is `Option (Option ℚ)`: `none` is a missing value
  (`isna`), `some none` a present value on which `float(...)` raises,
  `some (some q)` a present value converting to the float `q`.
* Fallible code returns `Except`/`Option`; the unhandled `NameError` of
  `plan_optimal_route` on an empty dealer string is an `Except.error`.
-/

/-- `\s` of Python regexes / `str.strip`, for the ASCII range:
space, tab, newline, carriage return, vertical tab, form feed. -/
def isPySpace (c : Char) : Bool :=
  c == ' ' || c == '\t' || c == '\n' || c == '\r' || c == '\x0b' || c == '\x0c'

/-- Helper for `collapseWs`: `inRun` records whether the previous character was
whitespace (in which case further whitespace is absorbed into the same run). -/
def collapseWsAux : Bool → List Char → List Char
  | _, [] => []
  | inRun, c :: cs =>
    if isPySpace c then
      if inRun then collapseWsAux true cs else ' ' :: collapseWsAux true cs
    else c :: collapseWsAux false cs

/-- `re.sub(r"\s+", " ", s)`: every maximal run of whitespace becomes one space. -/
def collapseWs (l : List Char) : List Char := collapseWsAux false l

/-- Python `str.strip()`: drop leading and trailing whitespace. -/
def pyStripL (l : List Char) : List Char :=
  ((l.dropWhile isPySpace).reverse.dropWhile isPySpace).reverse

/-- Python `str.lower()` (ASCII fragment). -/
def pyLower (l : List Char) : List Char := l.map Char.toLower

/-- The input normalization `re.sub(r"\s+", " ", s).strip().lower()` applied by
`plan_optimal_route` (travel_plan.py lines 107-108) to market and dealer. -/
def normalizeInput (s : String) : String :=
  String.mk (pyLower (pyStripL (collapseWs s.data)))

/-- Python substring test `needle in hay`, the semantics of
`Series.str.contains(re.escape(term), ...)` on one cell (the pattern is
escaped, so it matches literally). -/
def containsSub (hay needle : List Char) : Bool :=
  match hay with
  | [] => needle.isEmpty
  | c :: t => needle.isPrefixOf (c :: t) || containsSub t needle

/-- `re.split(r"\(|-", dealer)[0].strip()` (travel_plan.py line 119):
the dealer string up to its first `(` or `-`, trimmed. -/
def dealerSearchTerm (dealer : String) : String :=
  String.mk (pyStripL (dealer.data.takeWhile (fun c => !(c == '(' || c == '-'))))

/-- `format_minutes_to_hours` (travel_plan.py lines 18-31).  The argument is a
Python float, embedded as `ℚ`; `minutes // 60` is the floor, and `int(...)` of
the nonnegative remainder `minutes % 60` is again a floor. -/
def format_minutes_to_hours (minutes : ℚ) : String :=
  if minutes < 0 then "0 min"
  else
    let hours : ℤ := ⌊minutes / 60⌋
    let mins : ℤ := ⌊minutes - 60 * (⌊minutes / 60⌋ : ℚ)⌋
    let parts : List String :=
      (if 0 < hours then [toString hours ++ " hr"] else []) ++
      (if 0 < mins then [toString mins ++ " min"] else [])
    if parts.isEmpty then "0 min" else String.intercalate (" ") parts

example : format_minutes_to_hours 75 = "1 hr 15 min" := by
  simp only [format_minutes_to_hours]
  norm_num
  decide
example : format_minutes_to_hours 0 = "0 min" := by
  simp only [format_minutes_to_hours]
  norm_num
example : format_minutes_to_hours 60 = "1 hr" := by
  simp only [format_minutes_to_hours]
  norm_num
  decide
example : format_minutes_to_hours (-5) = "0 min" := by
  simp only [format_minutes_to_hours]
  norm_num
example : dealerSearchTerm ("saleem brothers(cbe)-rush order") = "saleem brothers" := by decide
example : dealerSearchTerm ("Saleem Brothers(CBE)-rush order") = "Saleem Brothers" := by decide
example : normalizeInput ("  ") = "" := by decide
example : normalizeInput (" A  b\tc ") = "a b c" := by decide
example : containsSub ("hello world".data) ("lo w".data) = true := by decide
example : containsSub ("hello".data) ("x".data) = false := by decide

/-- `math.radians` (used through `map(radians, ...)` in `haversine`). -/
noncomputable def radians (x : ℝ) : ℝ := x * (Real.pi / 180)

/-- `haversine` (travel_plan.py lines 10-16): great-circle distance in km,
Earth radius 6371. -/
noncomputable def haversine (lat1 lon1 lat2 lon2 : ℝ) : ℝ :=
  let rlon1 := radians lon1
  let rlat1 := radians lat1
  let rlon2 := radians lon2
  let rlat2 := radians lat2
  let dlon := rlon2 - rlon1
  let dlat := rlat2 - rlat1
  let a := Real.sin (dlat / 2) ^ 2 +
    Real.cos rlat1 * Real.cos rlat2 * Real.sin (dlon / 2) ^ 2
  let c := 2 * Real.arcsin (Real.sqrt a)
  6371 * c

lemma haversine_self (lat lon : ℝ) : haversine lat lon lat lon = 0 := by
  simp [haversine]

lemma sin_half_sq_comm (x y : ℝ) :
    Real.sin ((x - y) / 2) ^ 2 = Real.sin ((y - x) / 2) ^ 2 := by
  have h : (x - y) / 2 = -((y - x) / 2) := by ring
  rw [h, Real.sin_neg]
  ring

lemma haversine_comm (lat1 lon1 lat2 lon2 : ℝ) :
    haversine lat1 lon1 lat2 lon2 = haversine lat2 lon2 lat1 lon1 := by
  simp only [haversine]
  rw [sin_half_sq_comm (radians lat2) (radians lat1),
    sin_half_sq_comm (radians lon2) (radians lon1)]
  ring_nf

/-! Routing constants, set in `WalkarooTravelPlanner.__init__`
(travel_plan.py lines 45-49) and used by `_find_route_for_9_hours`. -/

noncomputable def VISIT_TIME_PER_SHOP : ℝ := 20

noncomputable def TOTAL_BREAK_TIME : ℝ := 75

noncomputable def AVG_SPEED_KMH : ℝ := 25

noncomputable def TOTAL_WORKDAY_MINUTES : ℝ := 9 * 60

/-- `AVAILABLE_TIME` (travel_plan.py line 74). -/
noncomputable def AVAILABLE_TIME : ℝ := TOTAL_WORKDAY_MINUTES - TOTAL_BREAK_TIME

/-- One entry of the `shop_distances` list (travel_plan.py lines 183-188). -/
structure Shop where
  shop : String
  lat : ℚ
  lon : ℚ
  last_visit : String
deriving DecidableEq

/-- A routed shop after `_find_route_for_9_hours` has attached
`distance_from_previous` and `travel_time_from_previous` (lines 94-95). -/
structure Stop where
  shop : Shop
  distance_from_previous : ℝ
  travel_time_from_previous : ℝ

/-- The `key` of the `min` call on line 84:
`haversine(current_lat, current_lon, shop["lat"], shop["lon"])`. -/
noncomputable def stepKey (clat clon : ℚ) (s : Shop) : ℝ :=
  haversine (clat : ℝ) (clon : ℝ) (s.lat : ℝ) (s.lon : ℝ)

/-- Python `min(x :: l, key=key)` together with `(x :: l).remove(min ...)`:
returns the first-encountered element with minimal key (CPython `min` replaces
its running best only on a strict `<`) and the list with exactly that
occurrence removed.  Models lines 84 and 97 of travel_plan.py. -/
noncomputable def pyExtractMin {α : Type} (key : α → ℝ) (x : α) : List α → α × List α
  | [] => (x, [])
  | y :: ys =>
    let m := pyExtractMin key y ys
    if key m.1 < key x then (m.1, x :: m.2) else (x, y :: ys)

lemma pyExtractMin_length {α : Type} (key : α → ℝ) (x : α) (l : List α) :
    ((pyExtractMin key x l).2).length = l.length := by
  induction l generalizing x with
  | nil => simp [pyExtractMin]
  | cons y ys ih =>
    simp only [pyExtractMin]
    split
    · simp [ih]
    · simp

/-- The loop of `_find_route_for_9_hours` (travel_plan.py lines 82-103):
`while unvisited and time_used < AVAILABLE_TIME`, pick the nearest unvisited
shop, commit it if its travel + visit time still fits, otherwise break. -/
noncomputable def findRouteAux : List Shop → ℚ → ℚ → ℝ → List Stop
  | [], _, _, _ => []
  | s :: rest0, current_lat, current_lon, time_used =>
    if time_used < AVAILABLE_TIME then
      let nearest := (pyExtractMin (stepKey current_lat current_lon) s rest0).1
      let remaining := (pyExtractMin (stepKey current_lat current_lon) s rest0).2
      let distance_to_shop := stepKey current_lat current_lon nearest
      let travel_time := distance_to_shop / AVG_SPEED_KMH * 60
      if time_used + (travel_time + VISIT_TIME_PER_SHOP) ≤ AVAILABLE_TIME then
        ⟨nearest, distance_to_shop, travel_time⟩ ::
          findRouteAux remaining nearest.lat nearest.lon
            (time_used + (travel_time + VISIT_TIME_PER_SHOP))
      else []
    else []
termination_by l _ _ _ => l.length
decreasing_by
  simp only [pyExtractMin_length, List.length_cons]
  exact Nat.lt_succ_self _

/-- `_find_route_for_9_hours` (travel_plan.py lines 69-103). -/
noncomputable def find_route_for_9_hours (shops : List Shop) (start_lat start_lon : ℚ) :
    List Stop :=
  findRouteAux shops start_lat start_lon 0

/-- The total step cost of a route: each stop contributes its travel time from
the previous point plus the fixed visit time. -/
noncomputable def stepCostSum (route : List Stop) : ℝ :=
  (route.map (fun st => st.travel_time_from_previous + VISIT_TIME_PER_SHOP)).sum

lemma stepCostSum_nil : stepCostSum [] = 0 := by simp [stepCostSum]

lemma stepCostSum_cons (a : Stop) (l : List Stop) :
    stepCostSum (a :: l) = (a.travel_time_from_previous + VISIT_TIME_PER_SHOP) + stepCostSum l := by
  simp [stepCostSum]

/-- Invariant of the routing loop: starting from `time_used = t ≤ AVAILABLE_TIME`,
every prefix of the produced route keeps `t` plus its step costs within
`AVAILABLE_TIME`. -/
lemma findRouteAux_budget :
    ∀ (k : ℕ) (l : List Shop), l.length ≤ k → ∀ (clat clon : ℚ) (t : ℝ),
      t ≤ AVAILABLE_TIME → ∀ n : ℕ,
      t + stepCostSum ((findRouteAux l clat clon t).take n) ≤ AVAILABLE_TIME := by
  intro k
  induction k with
  | zero =>
    intro l hl clat clon t ht n
    have : l = [] := List.length_eq_zero.mp (Nat.le_zero.mp hl)
    subst this
    simp [findRouteAux, stepCostSum_nil, ht]
  | succ k ih =>
    intro l hl clat clon t ht n
    match l with
    | [] => simp [findRouteAux, stepCostSum_nil, ht]
    | s :: rest0 =>
      rw [findRouteAux]
      by_cases h1 : t < AVAILABLE_TIME
      · rw [if_pos h1]
        set nearest := (pyExtractMin (stepKey clat clon) s rest0).1 with hne
        set remaining := (pyExtractMin (stepKey clat clon) s rest0).2 with hrem
        set travel_time := stepKey clat clon nearest / AVG_SPEED_KMH * 60 with htr
        by_cases h2 : t + (travel_time + VISIT_TIME_PER_SHOP) ≤ AVAILABLE_TIME
        · rw [if_pos h2]
          match n with
          | 0 => simpa [stepCostSum_nil] using ht
          | Nat.succ m =>
            rw [List.take_succ_cons, stepCostSum_cons]
            have hlen : remaining.length ≤ k := by
              have hpl := pyExtractMin_length (stepKey clat clon) s rest0
              rw [← hrem] at hpl
              simp only [List.length_cons] at hl
              omega
            have := ih remaining hlen nearest.lat nearest.lon
              (t + (travel_time + VISIT_TIME_PER_SHOP)) h2 m
            linarith
        · rw [if_neg h2]
          simpa [stepCostSum_nil] using ht
      · rw [if_neg h1]
        simpa [stepCostSum_nil] using ht

/-- Claim C1: every route built by `_find_route_for_9_hours` keeps the sum of
per-stop step costs (travel minutes from the previous point plus the fixed
visit minutes) within `TOTAL_WORKDAY_MINUTES - TOTAL_BREAK_TIME = 465`; this
holds for every prefix (`take n`), i.e. already at the moment each stop is
committed. -/
theorem route_step_costs_within_budget (shops : List Shop) (start_lat start_lon : ℚ) (n : ℕ) :
    stepCostSum ((find_route_for_9_hours shops start_lat start_lon).take n) ≤
      TOTAL_WORKDAY_MINUTES - TOTAL_BREAK_TIME ∧
    TOTAL_WORKDAY_MINUTES - TOTAL_BREAK_TIME = (465 : ℝ) := by
  have hA : AVAILABLE_TIME = TOTAL_WORKDAY_MINUTES - TOTAL_BREAK_TIME := rfl
  constructor
  · have h0 : (0 : ℝ) ≤ AVAILABLE_TIME := by
      norm_num [AVAILABLE_TIME, TOTAL_WORKDAY_MINUTES, TOTAL_BREAK_TIME]
    have hb := findRouteAux_budget shops.length shops le_rfl start_lat start_lon 0 h0 n
    rw [← hA]
    simpa [find_route_for_9_hours] using hb
  · norm_num [TOTAL_WORKDAY_MINUTES, TOTAL_BREAK_TIME]

/-- Characterization of `pyExtractMin`: it returns the first-encountered
element of `x :: l` attaining the minimal key (strictly smaller key than every
element before it, no larger than every element after it), and the remainder
list with exactly that occurrence removed. -/
lemma pyExtractMin_spec {α : Type} (key : α → ℝ) (x : α) (l : List α) :
    ∃ l1 l2,
      x :: l = l1 ++ (pyExtractMin key x l).1 :: l2 ∧
      (pyExtractMin key x l).2 = l1 ++ l2 ∧
      (∀ y ∈ l1, key (pyExtractMin key x l).1 < key y) ∧
      (∀ y ∈ l2, key (pyExtractMin key x l).1 ≤ key y) := by
  induction l generalizing x with
  | nil =>
    refine ⟨[], [], by simp [pyExtractMin], by simp [pyExtractMin], by simp, by simp⟩
  | cons y ys ih =>
    obtain ⟨l1, l2, hdec, hrest, hstrict, hle⟩ := ih y
    simp only [pyExtractMin]
    split
    · next h =>
      refine ⟨x :: l1, l2, by simpa using hdec, by simpa using hrest, ?_, hle⟩
      intro z hz
      rcases List.mem_cons.mp hz with hz | hz
      · subst hz; exact h
      · exact hstrict z hz
    · next h =>
      have hxm : key x ≤ key (pyExtractMin key y ys).1 := not_lt.mp h
      refine ⟨[], y :: ys, by simp, by simp, by simp, ?_⟩
      intro z hz
      have hz2 : z ∈ l1 ++ (pyExtractMin key y ys).1 :: l2 := by rw [← hdec]; exact hz
      rcases List.mem_append.mp hz2 with hz2 | hz2
      · exact le_trans hxm (le_of_lt (hstrict z hz2))
      · rcases List.mem_cons.mp hz2 with hz2 | hz2
        · rw [hz2]; simpa using hxm
        · exact le_trans hxm (hle z hz2)

/-- Claim C2: with time still available (`t < AVAILABLE_TIME`), the loop body of
`_find_route_for_9_hours` selects from the remaining candidates the
first-encountered one at minimum haversine distance from the current position
(strictly closer than every candidate listed before it, no farther than any
other), and then either commits it (when its travel + visit cost still fits)
and continues with it removed, or — the moment the cost would overflow the
budget — returns with no further insertion attempts. -/
theorem greedy_step_selection (s : Shop) (rest0 : List Shop) (clat clon : ℚ) (t : ℝ)
    (ht : t < AVAILABLE_TIME) :
    ∃ l1 l2,
      s :: rest0 = l1 ++ (pyExtractMin (stepKey clat clon) s rest0).1 :: l2 ∧
      (pyExtractMin (stepKey clat clon) s rest0).2 = l1 ++ l2 ∧
      (∀ y ∈ l1,
        stepKey clat clon (pyExtractMin (stepKey clat clon) s rest0).1 < stepKey clat clon y) ∧
      (∀ y ∈ s :: rest0,
        stepKey clat clon (pyExtractMin (stepKey clat clon) s rest0).1 ≤ stepKey clat clon y) ∧
      (AVAILABLE_TIME <
          t + (stepKey clat clon (pyExtractMin (stepKey clat clon) s rest0).1 /
            AVG_SPEED_KMH * 60 + VISIT_TIME_PER_SHOP) →
        findRouteAux (s :: rest0) clat clon t = []) ∧
      (t + (stepKey clat clon (pyExtractMin (stepKey clat clon) s rest0).1 /
            AVG_SPEED_KMH * 60 + VISIT_TIME_PER_SHOP) ≤ AVAILABLE_TIME →
        findRouteAux (s :: rest0) clat clon t =
          ⟨(pyExtractMin (stepKey clat clon) s rest0).1,
              stepKey clat clon (pyExtractMin (stepKey clat clon) s rest0).1,
              stepKey clat clon (pyExtractMin (stepKey clat clon) s rest0).1 /
                AVG_SPEED_KMH * 60⟩ ::
            findRouteAux (pyExtractMin (stepKey clat clon) s rest0).2
              (pyExtractMin (stepKey clat clon) s rest0).1.lat
              (pyExtractMin (stepKey clat clon) s rest0).1.lon
              (t + (stepKey clat clon (pyExtractMin (stepKey clat clon) s rest0).1 /
                AVG_SPEED_KMH * 60 + VISIT_TIME_PER_SHOP))) := by
  obtain ⟨l1, l2, hdec, hrest, hstrict, hle⟩ := pyExtractMin_spec (stepKey clat clon) s rest0
  have hmem : ∀ y ∈ s :: rest0,
      stepKey clat clon (pyExtractMin (stepKey clat clon) s rest0).1 ≤ stepKey clat clon y := by
    intro y hy
    rw [hdec] at hy
    rcases List.mem_append.mp hy with h1 | h1
    · exact le_of_lt (hstrict y h1)
    · rcases List.mem_cons.mp h1 with h1 | h1
      · rw [h1]
      · exact hle y h1
  refine ⟨l1, l2, hdec, hrest, hstrict, hmem, ?_, ?_⟩
  · intro hover
    rw [findRouteAux, if_pos ht, if_neg (not_le.mpr hover)]
  · intro hfit
    rw [findRouteAux, if_pos ht, if_pos hfit]

/-- A concrete candidate shop located exactly at the start position. -/
def witnessShop : Shop := ⟨"s1", 0, 0, "Never"⟩

lemma avail_eq_465 : AVAILABLE_TIME = (465 : ℝ) := by
  norm_num [AVAILABLE_TIME, TOTAL_WORKDAY_MINUTES, TOTAL_BREAK_TIME]

/-- Witness for `greedy_step_selection` at the concrete state
`unvisited = [witnessShop]`, `current = (0, 0)`, `time_used = 460`. -/
theorem greedy_step_selection_witness :
    ((460 : ℝ) < AVAILABLE_TIME) ∧
    (∃ l1 l2,
      witnessShop :: [] = l1 ++ (pyExtractMin (stepKey 0 0) witnessShop []).1 :: l2 ∧
      (pyExtractMin (stepKey 0 0) witnessShop []).2 = l1 ++ l2 ∧
      (∀ y ∈ l1,
        stepKey 0 0 (pyExtractMin (stepKey 0 0) witnessShop []).1 < stepKey 0 0 y) ∧
      (∀ y ∈ witnessShop :: [],
        stepKey 0 0 (pyExtractMin (stepKey 0 0) witnessShop []).1 ≤ stepKey 0 0 y) ∧
      (AVAILABLE_TIME <
          460 + (stepKey 0 0 (pyExtractMin (stepKey 0 0) witnessShop []).1 /
            AVG_SPEED_KMH * 60 + VISIT_TIME_PER_SHOP) →
        findRouteAux (witnessShop :: []) 0 0 460 = []) ∧
      (460 + (stepKey 0 0 (pyExtractMin (stepKey 0 0) witnessShop []).1 /
            AVG_SPEED_KMH * 60 + VISIT_TIME_PER_SHOP) ≤ AVAILABLE_TIME →
        findRouteAux (witnessShop :: []) 0 0 460 =
          ⟨(pyExtractMin (stepKey 0 0) witnessShop []).1,
              stepKey 0 0 (pyExtractMin (stepKey 0 0) witnessShop []).1,
              stepKey 0 0 (pyExtractMin (stepKey 0 0) witnessShop []).1 /
                AVG_SPEED_KMH * 60⟩ ::
            findRouteAux (pyExtractMin (stepKey 0 0) witnessShop []).2
              (pyExtractMin (stepKey 0 0) witnessShop []).1.lat
              (pyExtractMin (stepKey 0 0) witnessShop []).1.lon
              (460 + (stepKey 0 0 (pyExtractMin (stepKey 0 0) witnessShop []).1 /
                AVG_SPEED_KMH * 60 + VISIT_TIME_PER_SHOP)))) :=
  ⟨by rw [avail_eq_465]; norm_num,
    greedy_step_selection witnessShop [] 0 0 460 (by rw [avail_eq_465]; norm_num)⟩

lemma intercalate_pair (a b : String) :
    String.intercalate (" ") [a ++ " hr", b ++ " min"] = a ++ " hr " ++ b ++ " min" := by
  have h : String.intercalate (" ") [a ++ " hr", b ++ " min"] =
      (a ++ " hr") ++ " " ++ (b ++ " min") := rfl
  rw [h]
  apply String.ext
  simp [String.data_append]

/-- Claim C7: `format_minutes_to_hours` renders `"<H> hr <M> min"`, omits the
hour part when the hour count is zero and the minute part when the minute
count is zero, returns `"0 min"` for zero or negative input, and on the
concrete inputs: `0 ↦ "0 min"`, `75 ↦ "1 hr 15 min"`, `60 ↦ "1 hr"`,
`-5 ↦ "0 min"`. -/
theorem format_duration_rendering :
    (∀ m : ℚ, m ≤ 0 → format_minutes_to_hours m = "0 min") ∧
    (∀ m : ℚ, 0 ≤ m → 0 < ⌊m / 60⌋ → 0 < ⌊m - 60 * (⌊m / 60⌋ : ℚ)⌋ →
      format_minutes_to_hours m =
        toString ⌊m / 60⌋ ++ " hr " ++ toString ⌊m - 60 * (⌊m / 60⌋ : ℚ)⌋ ++ " min") ∧
    (∀ m : ℚ, 0 ≤ m → 0 < ⌊m / 60⌋ → ⌊m - 60 * (⌊m / 60⌋ : ℚ)⌋ = 0 →
      format_minutes_to_hours m = toString ⌊m / 60⌋ ++ " hr") ∧
    (∀ m : ℚ, 0 ≤ m → ⌊m / 60⌋ = 0 → 0 < ⌊m - 60 * (⌊m / 60⌋ : ℚ)⌋ →
      format_minutes_to_hours m = toString ⌊m - 60 * (⌊m / 60⌋ : ℚ)⌋ ++ " min") ∧
    format_minutes_to_hours 0 = "0 min" ∧
    format_minutes_to_hours 75 = "1 hr 15 min" ∧
    format_minutes_to_hours 60 = "1 hr" ∧
    format_minutes_to_hours (-5) = "0 min" := by
  refine ⟨?_, ?_, ?_, ?_, ?_, ?_, ?_, ?_⟩
  · intro m hm
    rcases lt_or_eq_of_le hm with hm | hm
    · simp only [format_minutes_to_hours]
      rw [if_pos hm]
    · subst hm
      simp only [format_minutes_to_hours]
      norm_num
  · intro m hm hh hmm
    simp only [format_minutes_to_hours]
    rw [if_neg (not_lt.mpr hm), if_pos hh, if_pos hmm]
    simpa using intercalate_pair (toString ⌊m / 60⌋) (toString ⌊m - 60 * (⌊m / 60⌋ : ℚ)⌋)
  · intro m hm hh hmm
    simp only [format_minutes_to_hours]
    rw [if_neg (not_lt.mpr hm), hmm, if_pos hh, if_neg (lt_irrefl (0 : ℤ))]
    rfl
  · intro m hm hh hmm
    simp only [format_minutes_to_hours]
    rw [if_neg (not_lt.mpr hm),
      if_neg (show ¬ (0 : ℤ) < ⌊m / 60⌋ by rw [hh]; exact lt_irrefl 0),
      if_pos hmm]
    rfl
  · simp only [format_minutes_to_hours]; norm_num
  · simp only [format_minutes_to_hours]; norm_num; decide
  · simp only [format_minutes_to_hours]; norm_num; decide
  · simp only [format_minutes_to_hours]; norm_num

/-- Witness for `format_duration_rendering`: its hypotheses are satisfiable,
instantiated at `m = 75` (first general clause at `m = 0`). -/
theorem format_duration_rendering_witness :
    ((0 : ℚ) ≤ 75 ∧ 0 < ⌊(75 : ℚ) / 60⌋ ∧ 0 < ⌊(75 : ℚ) - 60 * (⌊(75 : ℚ) / 60⌋ : ℚ)⌋) ∧
    format_minutes_to_hours 75 =
      toString ⌊(75 : ℚ) / 60⌋ ++ " hr " ++
        toString ⌊(75 : ℚ) - 60 * (⌊(75 : ℚ) / 60⌋ : ℚ)⌋ ++ " min" :=
  ⟨⟨by norm_num, by norm_num, by norm_num⟩,
    format_duration_rendering.2.1 75 (by norm_num) (by norm_num) (by norm_num)⟩

/-- Claim C8: the haversine great-circle distance vanishes on identical points
and is symmetric in its two points. -/
theorem haversine_zero_and_symmetric :
    (∀ lat lon : ℝ, haversine lat lon lat lon = 0) ∧
    (∀ lat1 lon1 lat2 lon2 : ℝ,
      haversine lat1 lon1 lat2 lon2 = haversine lat2 lon2 lat1 lon1) :=
  ⟨haversine_self, haversine_comm⟩

/-- One spreadsheet row after `preprocess` (travel_plan.py lines 52-67):
column names sanitized, `distributorname` and `market` stripped and
lowercased.  `last_visit_dt` carries the result of
`pd.to_datetime(row, errors="coerce")` (line 138) as an abstract timestamp,
`none` being `NaT` (missing or unparseable); `last_visited_date` is the raw
cell (`none` = `isna`, `some s` = the value as rendered by `str(...)`).
Coordinate cells follow the `Option (Option ℚ)` convention of the header. -/
structure Row where
  market : String
  distributorname : String
  outletname : String
  last_visited_date : Option String
  last_visit_dt : Option ℤ
  latitude : Option (Option ℚ)
  longitude : Option (Option ℚ)
  salesperson_latitude : Option (Option ℚ)
  salesperson_longitude : Option (Option ℚ)
deriving DecidableEq

/-- `market_mask` (line 114): `contains(re.escape(market), na=False)` when the
market string is non-empty (Python truthiness), else `True`. -/
def marketMask (market : String) (r : Row) : Bool :=
  if market = "" then true else containsSub r.market.data market.data

/-- `dealer_mask` (line 122): case-insensitive literal substring test of the
search term against the normalized `distributorname` column. -/
def dealerMask (term : String) (r : Row) : Bool :=
  containsSub (pyLower r.distributorname.data) (pyLower term.data)

/-- `final_df = combined_df[market_mask & dealer_mask]` (lines 114-124),
for a non-empty dealer (the search term is derived on line 119). -/
def filterOutlets (df : List Row) (market dealer : String) : List Row :=
  df.filter (fun r => marketMask market r && dealerMask (dealerSearchTerm dealer) r)

/-- Stable insertion of a row into a list sorted ascending by `last_visit_dt`
(`none` never occurs here; see `sort_values_na_first`). -/
def insertByDt (r : Row) : List Row → List Row
  | [] => [r]
  | x :: xs =>
    if x.last_visit_dt.getD 0 ≤ r.last_visit_dt.getD 0 then x :: insertByDt r xs
    else r :: x :: xs

/-- Stable insertion sort ascending by `last_visit_dt`. -/
def sortByDt : List Row → List Row
  | [] => []
  | x :: xs => insertByDt x (sortByDt xs)

/-- `sort_values(by="last_visit_dt", ascending=True, na_position="first")`
(line 141).  Pandas places the `NaT` rows first in their original order
(`nargsort` collects them by ascending position) and sorts the remaining rows
ascending by timestamp.  The tie order among equal non-`NaT` timestamps is
modelled as stable; the pandas default `kind="quicksort"` does not promise this
(see the C3 discussion), and no claim proved against this model depends on the
tie order. -/
def sort_values_na_first (rows : List Row) : List Row :=
  rows.filter (fun r => r.last_visit_dt.isNone) ++
    sortByDt (rows.filter (fun r => r.last_visit_dt.isSome))

/-- `drop_duplicates(subset=["outletname"], keep="first")` (line 144):
keep the first occurrence of each outlet name, scanning top-down. -/
def dedupAux (seen : List String) : List Row → List Row
  | [] => []
  | x :: xs =>
    if seen.contains x.outletname then dedupAux seen xs
    else x :: dedupAux (x.outletname :: seen) xs

/-- The prioritization step (lines 134-144): recency sort, then dedup by
outlet name keeping the first (highest-priority) occurrence. -/
def prioritizeRows (rows : List Row) : List Row :=
  dedupAux [] (sort_values_na_first rows)

/-- `valid_start_point_df` (lines 152-155): rows whose salesperson
coordinates are both non-NA. -/
def validStartRows (selected : List Row) : List Row :=
  selected.filter
    (fun r => r.salesperson_latitude.isSome && r.salesperson_longitude.isSome)

/-- Lines 151-172: take the first row with both salesperson coordinates
present; `float(...)` both (`Option.join` — `none` on a present but
non-convertible value, in which case the whole plan returns the
no-route triple).  Returns the start coordinates and the source outlet. -/
def locateStart (selected : List Row) : Option (ℚ × ℚ × String) :=
  match validStartRows selected with
  | [] => none
  | r0 :: _ =>
    match r0.salesperson_latitude.join, r0.salesperson_longitude.join with
    | some la, some lo => some (la, lo, r0.outletname)
    | _, _ => none

/-- `str(row["last_visited_date"]) if pd.notna(...) else "Never"` (line 187). -/
def displayLastVisit (r : Row) : String :=
  match r.last_visited_date with
  | some s => s
  | none => "Never"

/-- `shop_distances` (lines 174-190): skip rows with a missing coordinate
(`isna`) and rows whose coordinate raises in `float(...)`; keep the rest. -/
def shopCandidates (selected : List Row) : List Shop :=
  selected.filterMap (fun r =>
    match r.latitude.join, r.longitude.join with
    | some la, some lo => some ⟨r.outletname, la, lo, displayLastVisit r⟩
    | _, _ => none)

/-- The only exception `plan_optimal_route` can raise on its own: the
`NameError` from reading the unassigned `dealer_mask` on line 124 when the
dealer string is empty. -/
inductive PyErr where
  | nameError
deriving DecidableEq

/-- Outcome of the external `genai` formatting call (lines 281-292): the
response text, a `BlockedPromptException`, or any other API error. -/
inductive FmtOutcome where
  | success (text : String)
  | blockedPrompt
  | apiError
deriving DecidableEq

/-- Line 287. -/
def blockedMsg : String :=
  "Report generation failed because the content was blocked by safety filters. Please check the data for any sensitive information."

/-- Line 292. -/
def apiErrorMsg : String :=
  "Could not generate the final report due to an API error. This is often caused by exceeding the daily usage quota. Please try again later or check your API plan."

/-- `gpt_route` after the try/except of lines 281-292:
`response.text.strip()` on success, a fixed marker string on failure. -/
def gptRouteOf (fmt : FmtOutcome) : String :=
  match fmt with
  | .success t => String.mk (pyStripL t.data)
  | .blockedPrompt => blockedMsg
  | .apiError => apiErrorMsg

/-- One entry of `retailers_json` (lines 323-328). -/
structure Retailer where
  name : String
  lat : ℚ
  lng : ℚ
  type : String
deriving DecidableEq

/-- The non-`None` return triple of `plan_optimal_route` (line 331). -/
structure PlanResult where
  gpt_route : String
  map_url : String
  retailers : List Retailer
deriving DecidableEq

/-- `plan_optimal_route` (travel_plan.py lines 105-331).  `Except.ok none`
models the `return None, None, None` exits; `Except.error .nameError` models
the `NameError` raised on line 124 when the normalized dealer is empty (the
`dealer_mask` variable is assigned only under `if dealer:`).  The map file
side effect is summarized by its returned URL `"/" + "static/route_map.html"`;
the external formatter outcome is the explicit parameter `fmt`. -/
noncomputable def plan_optimal_route (df : List Row) (market dealer : String)
    (fmt : FmtOutcome) : Except PyErr (Option PlanResult) :=
  let market := normalizeInput market
  let dealer := normalizeInput dealer
  if dealer = "" then Except.error PyErr.nameError
  else
    let final_df := filterOutlets df market dealer
    if final_df = [] then Except.ok none
    else
      let selected_shops := prioritizeRows final_df
      if selected_shops = [] then Except.ok none
      else
        match locateStart selected_shops with
        | none => Except.ok none
        | some (salesperson_lat, salesperson_lon, _) =>
          let shop_distances := shopCandidates selected_shops
          if shop_distances = [] then Except.ok none
          else
            let optimal_route :=
              find_route_for_9_hours shop_distances salesperson_lat salesperson_lon
            Except.ok (some
              { gpt_route := gptRouteOf fmt
                map_url := "/static/route_map.html"
                retailers := ⟨"Salesperson Start/End", salesperson_lat, salesperson_lon, "start"⟩ ::
                  optimal_route.map (fun st => ⟨st.shop.shop, st.shop.lat, st.shop.lon, "shop"⟩) })

/-- Claim C10: with a dealer that is empty after normalization (and a
non-empty market), `plan_optimal_route` raises the `NameError` from the
unassigned `dealer_mask` instead of returning the typed no-result triple. -/
theorem empty_dealer_raises_nameerror (df : List Row) (market dealer : String)
    (fmt : FmtOutcome) (hd : normalizeInput dealer = "")
    (hm : normalizeInput market ≠ "") :
    plan_optimal_route df market dealer fmt = Except.error PyErr.nameError ∧
    plan_optimal_route df market dealer fmt ≠ Except.ok none := by
  constructor
  · simp [plan_optimal_route, hd]
  · simp [plan_optimal_route, hd]

/-- Witness for `empty_dealer_raises_nameerror`: market `"x"`, dealer `" "`
(whitespace only, hence empty after normalization). -/
theorem empty_dealer_raises_nameerror_witness :
    (normalizeInput (" ") = "" ∧ normalizeInput ("x") ≠ "") ∧
    (plan_optimal_route [] ("x") (" ") (FmtOutcome.success ("t")) =
        Except.error PyErr.nameError ∧
      plan_optimal_route [] ("x") (" ") (FmtOutcome.success ("t")) ≠ Except.ok none) :=
  ⟨⟨by decide, by decide⟩,
    empty_dealer_raises_nameerror [] ("x") (" ") (FmtOutcome.success ("t"))
      (by decide) (by decide)⟩

/-- Claim C6: the dealer search term is the dealer string up to its first `(`
or `-`, trimmed — on the input named by the claim, `"Saleem Brothers(CBE)-rush order"`,
this derivation yields `"Saleem Brothers"`; the term actually flowing through
the pipeline is derived from the normalized (lowercased) dealer and equals
`"saleem brothers"`, which the case-insensitive matcher cannot distinguish
from the former; and the dealer mask is exactly the case-insensitive
substring test of the term against the normalized distributor field. -/
theorem dealer_search_term_extraction :
    dealerSearchTerm ("Saleem Brothers(CBE)-rush order") = "Saleem Brothers" ∧
    dealerSearchTerm (normalizeInput ("Saleem Brothers(CBE)-rush order")) = "saleem brothers" ∧
    pyLower ((dealerSearchTerm ("Saleem Brothers(CBE)-rush order")).data) =
      pyLower ((dealerSearchTerm (normalizeInput ("Saleem Brothers(CBE)-rush order"))).data) ∧
    (∀ (term : String) (r : Row),
      dealerMask term r =
        containsSub (pyLower r.distributorname.data) (pyLower term.data)) :=
  ⟨by decide, by decide, by decide, fun term r => rfl⟩

lemma locateStart_of_validStart_nil (l : List Row) (h : validStartRows l = []) :
    locateStart l = none := by
  simp [locateStart, h]

/-- Claim C5: with a non-empty normalized dealer, whenever filtering yields no
matching row, or no prioritized row passes the salesperson-coordinate
presence test, or no prioritized row has routable geocoordinates,
`plan_optimal_route` returns the typed no-result triple (`Except.ok none`)
and in particular raises no exception. -/
theorem no_candidates_returns_none (df : List Row) (market dealer : String)
    (fmt : FmtOutcome) (hd : normalizeInput dealer ≠ "")
    (h : filterOutlets df (normalizeInput market) (normalizeInput dealer) = [] ∨
      validStartRows (prioritizeRows
        (filterOutlets df (normalizeInput market) (normalizeInput dealer))) = [] ∨
      shopCandidates (prioritizeRows
        (filterOutlets df (normalizeInput market) (normalizeInput dealer))) = []) :
    plan_optimal_route df market dealer fmt = Except.ok none := by
  simp only [plan_optimal_route]
  rw [if_neg hd]
  by_cases h1 : filterOutlets df (normalizeInput market) (normalizeInput dealer) = []
  · rw [if_pos h1]
  · rw [if_neg h1]
    by_cases h2 : prioritizeRows
        (filterOutlets df (normalizeInput market) (normalizeInput dealer)) = []
    · rw [if_pos h2]
    · rw [if_neg h2]
      rcases h with h | h | h
      · exact absurd h h1
      · rw [locateStart_of_validStart_nil _ h]
      · rcases hls : locateStart (prioritizeRows
            (filterOutlets df (normalizeInput market) (normalizeInput dealer))) with _ | ⟨la, lo, nm⟩
        · rfl
        · simp [h]

/-- Witness for `no_candidates_returns_none`: the empty catalog with market
`"m"` and dealer `"d"` filters to nothing and yields the no-result triple. -/
theorem no_candidates_returns_none_witness :
    (normalizeInput ("d") ≠ "" ∧
      filterOutlets [] (normalizeInput ("m")) (normalizeInput ("d")) = []) ∧
    plan_optimal_route [] ("m") ("d") (FmtOutcome.success ("t")) = Except.ok none :=
  ⟨⟨by decide, by decide⟩,
    no_candidates_returns_none [] ("m") ("d") (FmtOutcome.success ("t"))
      (by decide) (Or.inl (by decide))⟩

/-- A prioritized outlet whose salesperson coordinates are both present
(non-NA) but not convertible to float. -/
def rowA : Row :=
  { market := "m", distributorname := "d", outletname := "A",
    last_visited_date := none, last_visit_dt := none,
    latitude := none, longitude := none,
    salesperson_latitude := some none, salesperson_longitude := some none }

/-- A later prioritized outlet whose salesperson coordinates are present and
convertible. -/
def rowB : Row :=
  { market := "m", distributorname := "d", outletname := "B",
    last_visited_date := none, last_visit_dt := none,
    latitude := some (some 10), longitude := some (some 20),
    salesperson_latitude := some (some 10), salesperson_longitude := some (some 20) }

/-- The start-selection rule exactly as Claim C4 words it (stated from the
claim, for comparison with the `locateStart` of the source): scan the prioritized
list in order and use the first outlet whose salesperson latitude and
longitude are both present AND convertible to floating point. -/
def locateStartClaim (selected : List Row) : Option (ℚ × ℚ × String) :=
  match selected.find? (fun r =>
      r.salesperson_latitude.join.isSome && r.salesperson_longitude.join.isSome) with
  | some r =>
    match r.salesperson_latitude.join, r.salesperson_longitude.join with
    | some la, some lo => some (la, lo, r.outletname)
    | _, _ => none
  | none => none

/-- Counterexample to Claim C4 as stated: on the prioritized list
`[rowA, rowB]` the claimed rule starts from outlet `B` at `(10, 20)`, but the
code filters only on presence, takes `rowA`, fails its float conversion and
returns the no-route triple without scanning further. -/
theorem start_locator_counterexample :
    locateStartClaim [rowA, rowB] = some (10, 20, "B") ∧
    locateStart [rowA, rowB] = none ∧
    plan_optimal_route [rowA, rowB] ("m") ("d") (FmtOutcome.success ("t")) =
      Except.ok none := by
  refine ⟨by decide, by decide, ?_⟩
  have h : locateStart (prioritizeRows (filterOutlets [rowA, rowB]
      (normalizeInput ("m")) (normalizeInput ("d")))) = none := by decide
  simp only [plan_optimal_route]
  rw [if_neg (by decide : ¬ normalizeInput ("d") = ""),
    if_neg (by decide : ¬ filterOutlets [rowA, rowB]
      (normalizeInput ("m")) (normalizeInput ("d")) = []),
    if_neg (by decide : ¬ prioritizeRows (filterOutlets [rowA, rowB]
      (normalizeInput ("m")) (normalizeInput ("d"))) = []), h]

/-- Claim C4, amended as the counterexample forces: the start locator takes
the first prioritized outlet whose salesperson coordinates are both present
(non-NA); the start is the float conversion of that outlet, and when that
conversion fails — or when no outlet has both coordinates present — plan
generation returns the typed no-route outcome without scanning later outlets
and without raising. -/
theorem start_locator_first_present :
    (∀ selected : List Row, validStartRows selected = [] → locateStart selected = none) ∧
    (∀ (selected : List Row) (r : Row) (rest : List Row),
      validStartRows selected = r :: rest →
      locateStart selected =
        match r.salesperson_latitude.join, r.salesperson_longitude.join with
        | some la, some lo => some (la, lo, r.outletname)
        | _, _ => none) ∧
    (∀ (df : List Row) (market dealer : String) (fmt : FmtOutcome),
      normalizeInput dealer ≠ "" →
      locateStart (prioritizeRows
        (filterOutlets df (normalizeInput market) (normalizeInput dealer))) = none →
      plan_optimal_route df market dealer fmt = Except.ok none) := by
  refine ⟨locateStart_of_validStart_nil, ?_, ?_⟩
  · intro selected r rest hv
    simp [locateStart, hv]
  · intro df market dealer fmt hd hls
    simp only [plan_optimal_route]
    rw [if_neg hd]
    by_cases h1 : filterOutlets df (normalizeInput market) (normalizeInput dealer) = []
    · rw [if_pos h1]
    · rw [if_neg h1]
      by_cases h2 : prioritizeRows
          (filterOutlets df (normalizeInput market) (normalizeInput dealer)) = []
      · rw [if_pos h2]
      · rw [if_neg h2, hls]

/-- Witness for `start_locator_first_present`: on `[rowA, rowB]` the first
row with both salesperson coordinates present is `rowA`, and the locator
returns its (failing) conversion. -/
theorem start_locator_first_present_witness :
    validStartRows [rowA, rowB] = rowA :: [rowB] ∧
    locateStart [rowA, rowB] =
      (match rowA.salesperson_latitude.join, rowA.salesperson_longitude.join with
        | some la, some lo => some (la, lo, rowA.outletname)
        | _, _ => none) :=
  ⟨by decide, start_locator_first_present.2.1 [rowA, rowB] rowA [rowB] (by decide)⟩

/-- Shape of `plan_optimal_route` as a function of the formatter outcome: the
branch taken and every computed component other than the narrative text are
independent of it. -/
lemma plan_fmt_shape (df : List Row) (market dealer : String) :
    (∀ g : FmtOutcome,
      plan_optimal_route df market dealer g = Except.error PyErr.nameError) ∨
    (∀ g : FmtOutcome, plan_optimal_route df market dealer g = Except.ok none) ∨
    (∃ retailers : List Retailer, ∀ g : FmtOutcome,
      plan_optimal_route df market dealer g =
        Except.ok (some ⟨gptRouteOf g, "/static/route_map.html", retailers⟩)) := by
  by_cases h0 : normalizeInput dealer = ""
  · left
    intro g
    simp [plan_optimal_route, h0]
  · by_cases h1 : filterOutlets df (normalizeInput market) (normalizeInput dealer) = []
    · right; left
      intro g
      simp [plan_optimal_route, h0, h1]
    · by_cases h2 : prioritizeRows
          (filterOutlets df (normalizeInput market) (normalizeInput dealer)) = []
      · right; left
        intro g
        simp [plan_optimal_route, h0, h1, h2]
      · rcases hls : locateStart (prioritizeRows
            (filterOutlets df (normalizeInput market) (normalizeInput dealer))) with _ | ⟨la, lo, nm⟩
        · right; left
          intro g
          simp [plan_optimal_route, h0, h1, h2, hls]
        · by_cases h4 : shopCandidates (prioritizeRows
              (filterOutlets df (normalizeInput market) (normalizeInput dealer))) = []
          · right; left
            intro g
            simp [plan_optimal_route, h0, h1, h2, hls, h4]
          · right; right
            refine ⟨⟨"Salesperson Start/End", la, lo, "start"⟩ ::
              (find_route_for_9_hours (shopCandidates (prioritizeRows
                  (filterOutlets df (normalizeInput market) (normalizeInput dealer)))) la lo).map
                (fun st => ⟨st.shop.shop, st.shop.lat, st.shop.lon, "shop"⟩), ?_⟩
            intro g
            simp [plan_optimal_route, h0, h1, h2, hls, h4]

/-- Claim C9: a failure of the external text formatter is isolated — the map
URL and the retailers point list of the returned plan are identical to those
of a successful run, and only the narrative text is replaced by the fixed,
clearly-marked failure string of the respective failure mode. -/
theorem formatter_failure_isolated (df : List Row) (market dealer : String)
    (fmt : FmtOutcome) :
    ((plan_optimal_route df market dealer fmt).map
        (Option.map (fun res => (res.map_url, res.retailers))) =
      (plan_optimal_route df market dealer FmtOutcome.blockedPrompt).map
        (Option.map (fun res => (res.map_url, res.retailers)))) ∧
    ((plan_optimal_route df market dealer FmtOutcome.blockedPrompt).map
        (Option.map PlanResult.gpt_route) =
      (plan_optimal_route df market dealer FmtOutcome.blockedPrompt).map
        (Option.map (fun _ => blockedMsg))) ∧
    ((plan_optimal_route df market dealer FmtOutcome.apiError).map
        (Option.map PlanResult.gpt_route) =
      (plan_optimal_route df market dealer FmtOutcome.apiError).map
        (Option.map (fun _ => apiErrorMsg))) := by
  rcases plan_fmt_shape df market dealer with h | h | ⟨rs, h⟩
  · rw [h fmt, h FmtOutcome.blockedPrompt, h FmtOutcome.apiError]
    exact ⟨rfl, rfl, rfl⟩
  · rw [h fmt, h FmtOutcome.blockedPrompt, h FmtOutcome.apiError]
    exact ⟨rfl, rfl, rfl⟩
  · rw [h fmt, h FmtOutcome.blockedPrompt, h FmtOutcome.apiError]
    exact ⟨rfl, rfl, rfl⟩
